import Mathlib

/-!
Shallow embedding of `lock_and_capture.py` (class `LockAndCaptureApp`).

The program interacts with the outside world through a small set of calls:
opening a camera device by index, checking it opened, reading a frame,
releasing the handle, writing an image file, showing a modal dialog, and
the OS lock-workstation call.  Each function below is parameterised by an
environment record describing the outcome of those external calls, and
returns the value the Python function returns together with the externally
observable effects (handle open/release events, release count, steps taken)
needed by the properties under verification.
-/

/-- Outcome of one `cap.read()` call inside `capture_image`'s loop:
a successful read yielding frame data `f`, a failed read (Python: the call
returns `(False, None)`), or the call raising an exception. -/
inductive ReadOutcome where
  | ok (f : Nat)
  | fail
  | exn
deriving DecidableEq, Repr

/-- Outcome of the `cv2.imwrite` call: returns True, returns False, or raises. -/
inductive WriteOutcome where
  | ok
  | fail
  | exn
deriving DecidableEq, Repr

/-- Outcome of the `user32.LockWorkStation()` call: returns a BOOL or raises. -/
inductive OsCallOutcome where
  | ret (b : Bool)
  | exn
deriving DecidableEq, Repr

/-- A camera-handle event: a device handle becoming open (`VideoCapture`
construction where `isOpened()` is true) or being released. -/
inductive CamEvent where
  | opened (i : Nat)
  | released (i : Nat)
deriving DecidableEq, Repr

/-- Net number of open camera handles after a list of events (+1 per open,
-1 per release). -/
def handleBalance : List CamEvent → Int
  | [] => 0
  | CamEvent.opened _ :: rest => 1 + handleBalance rest
  | CamEvent.released _ :: rest => -1 + handleBalance rest

/-- Event lists that are concatenations of immediate `opened i, released i`
pairs: the shape produced by the scoped open/release discipline of the code. -/
inductive Paired : List CamEvent → Prop
  | nil : Paired []
  | pair (i : Nat) {rest : List CamEvent} :
      Paired rest → Paired (CamEvent.opened i :: CamEvent.released i :: rest)

/-- Simplified local timestamp, as consumed by
`datetime.datetime.now().strftime("%Y%m%d_%H%M%S")`. -/
structure DateTime where
  year : Nat
  month : Nat
  day : Nat
  hour : Nat
  minute : Nat
  second : Nat
deriving DecidableEq, Repr

/-- Zero-pad a number to two digits, as `%m %d %H %M %S` do. -/
def pad2 (n : Nat) : String :=
  if n < 10 then "0" ++ toString n else toString n

/-- Zero-pad a number to four digits, as `%Y` does. -/
def pad4 (n : Nat) : String :=
  if n < 10 then "000" ++ toString n
  else if n < 100 then "00" ++ toString n
  else if n < 1000 then "0" ++ toString n
  else toString n

/-- `strftime("%Y%m%d_%H%M%S")` on the given clock reading. -/
def timestampStr (t : DateTime) : String :=
  pad4 t.year ++ pad2 t.month ++ pad2 t.day ++ "_" ++
    pad2 t.hour ++ pad2 t.minute ++ pad2 t.second

/-- The output filename `f"capture_{timestamp}.jpg"`. -/
def captureFilename (t : DateTime) : String :=
  "capture_" ++ timestampStr t ++ ".jpg"

/-- `os.path.join(dir, name)` for a relative `name`: directory, separator,
filename.  Paths are modelled POSIX-style. -/
def pathJoin (dir name : String) : String := dir ++ "/" ++ name

/-- A path is absolute when it starts with the root separator (POSIX-style
model of `os.path.abspath` output). -/
def isAbsolute (p : String) : Bool :=
  match p.data with
  | [] => false
  | c :: _ => c = '/'

/-! ## Camera Locator: `detect_camera` -/

/-- External behaviour of the five candidate devices: for index `i`,
`opens i` is whether `cv2.VideoCapture(i).isOpened()` is true and
`reads i` is whether the probe `cap.read()` returns a frame. -/
structure DetectEnv where
  opens : Fin 5 → Bool
  reads : Fin 5 → Bool

/-- Result of the camera probe: the returned index (`none` models `-1`),
the number of `VideoCapture` constructions performed, and the handle events. -/
structure DetectRes where
  result : Option (Fin 5)
  probes : Nat
  events : List CamEvent
deriving DecidableEq, Repr

/-- The probe loop `for i in range(5)` of `detect_camera`, over the remaining
indices: construct the capture; if opened, read a frame; on a successful
read release and return the index; otherwise release (when opened) and
continue. -/
def detectFrom (env : DetectEnv) : List (Fin 5) → DetectRes
  | [] => { result := none, probes := 0, events := [] }
  | i :: rest =>
    if env.opens i then
      if env.reads i then
        { result := some i, probes := 1,
          events := [CamEvent.opened i.val, CamEvent.released i.val] }
      else
        let r := detectFrom env rest
        { result := r.result, probes := r.probes + 1,
          events := CamEvent.opened i.val :: CamEvent.released i.val :: r.events }
    else
      let r := detectFrom env rest
      { result := r.result, probes := r.probes + 1, events := r.events }

/-- The candidate indices `range(5)` in probe order. -/
def allCams : List (Fin 5) := [0, 1, 2, 3, 4]

/-- `detect_camera`: probe indices 0..4 in order, returning the first that
opens and reads (`none` models the `-1` of the source). -/
def detect_camera (env : DetectEnv) : DetectRes :=
  detectFrom env allCams

/-! ## Capturer: `capture_image` -/

/-- External behaviour seen by one `capture_image(camera_id)` call. -/
structure CaptureEnv where
  camId : Nat
  opensOk : Bool
  reads : Fin 3 → ReadOutcome
  write : WriteOutcome
  clock : DateTime
  appDir : String

/-- Result of `capture_image`: the returned value (`none` models `None`),
the number of `cap.release()` calls performed, the number of `cap.read()`
calls performed, and the handle events. -/
structure CaptureResult where
  result : Option String
  releases : Nat
  readsAttempted : Nat
  events : List CamEvent
deriving DecidableEq, Repr

/-- The `for i in range(3)` read loop.  Each iteration rebinds `frame` to the
frame component of `cap.read()` — `some f` on success, `none` on failure
(Python assigns `None`) — and a raising read escapes the loop.  Returns the
final binding of `frame` (or `none` on escape by exception) together with
the number of reads performed. -/
def readLoop (reads : Fin 3 → ReadOutcome) :
    List (Fin 3) → Option Nat → Nat → Option (Option Nat) × Nat
  | [], frame, n => (some frame, n)
  | i :: rest, _, n =>
    match reads i with
    | ReadOutcome.exn => (none, n + 1)
    | ReadOutcome.ok f => readLoop reads rest (some f) (n + 1)
    | ReadOutcome.fail => readLoop reads rest none (n + 1)

/-- `capture_image`: open the device (release in `finally` on every path);
if not opened return `None`; run the read loop; if `frame is None` return
`None`; otherwise build the timestamped path and `imwrite`, returning the
path on success and `None` on write failure or any exception. -/
def capture_image (env : CaptureEnv) : CaptureResult :=
  if env.opensOk then
    let evs := [CamEvent.opened env.camId, CamEvent.released env.camId]
    match readLoop env.reads [0, 1, 2] none 0 with
    | (none, n) =>
      { result := none, releases := 1, readsAttempted := n, events := evs }
    | (some none, n) =>
      { result := none, releases := 1, readsAttempted := n, events := evs }
    | (some (some _f), n) =>
      { result :=
          if env.write = WriteOutcome.ok
          then some (pathJoin env.appDir (captureFilename env.clock))
          else none,
        releases := 1, readsAttempted := n, events := evs }
  else
    { result := none, releases := 1, readsAttempted := 0, events := [] }

/-! ## Session Locker: `lock_workstation` -/

/-- Result of `lock_workstation`: the returned boolean and the number of
`LockWorkStation()` calls made. -/
structure LockResult where
  result : Bool
  attempts : Nat
deriving DecidableEq, Repr

/-- `lock_workstation`: one `LockWorkStation()` call; return its boolean,
and `False` when the call raises (the `except` branch). -/
def lock_workstation (call : OsCallOutcome) : LockResult :=
  match call with
  | OsCallOutcome.ret b => { result := b, attempts := 1 }
  | OsCallOutcome.exn => { result := false, attempts := 1 }

/-! ## Orchestrator: `run` and `main` -/

/-- An externally observable step of `run`. -/
inductive Step where
  | notifyInitial
  | confirmNoCamera
  | doCapture
  | notifyCaptureFailed
  | doLock
  | notifyLockFailed
  | notifyError
deriving DecidableEq, Repr

/-- External behaviour of one `run()` call. -/
structure RunEnv where
  detect : DetectEnv
  dialogAnswer : Int
  capture : CaptureEnv
  lock : OsCallOutcome

/-- The lock section of `run`: call `lock_workstation`, then show the error
dialog when it reported failure. -/
def lockSteps (call : OsCallOutcome) : List Step :=
  Step.doLock ::
    (if (lock_workstation call).result then [] else [Step.notifyLockFailed])

/-- The step trace of `run()`'s body: initial notice; detect; if no camera,
confirm and stop unless the answer is `1` (OK); if a camera was found, capture
and show a warning when capture returned `None`; then lock. -/
def runSteps (env : RunEnv) : List Step :=
  match (detect_camera env.detect).result with
  | none =>
    if env.dialogAnswer = 1 then
      [Step.notifyInitial, Step.confirmNoCamera] ++ lockSteps env.lock
    else
      [Step.notifyInitial, Step.confirmNoCamera]
  | some _ =>
    [Step.notifyInitial, Step.doCapture] ++
      (if (capture_image env.capture).result = none
       then [Step.notifyCaptureFailed] else []) ++
      lockSteps env.lock

/-- A fault interrupting `run()`'s body: none, a `KeyboardInterrupt` after
`k` steps, or an unexpected exception after `k` steps. -/
inductive BodyFault where
  | nofault
  | keyboard (k : Nat)
  | unexpected (k : Nat)
deriving DecidableEq, Repr

/-- `run()` with its top-level `try/except`: a `KeyboardInterrupt` is logged
and swallowed; any other exception is caught and surfaced via an error
dialog; in both cases the function returns normally. -/
def run_caught (env : RunEnv) : BodyFault → List Step
  | BodyFault.nofault => runSteps env
  | BodyFault.keyboard k => (runSteps env).take k
  | BodyFault.unexpected k => (runSteps env).take k ++ [Step.notifyError]

/-- External behaviour of one process invocation: whether
`LockAndCaptureApp()` construction (Windows API loading) succeeds, and the
behaviour of `run()`. -/
structure MainEnv where
  initOk : Bool
  runEnv : RunEnv
  fault : BodyFault

/-- `main()`: construct the app and run it, exiting with code 0 on normal
return; when construction raises, show a best-effort error message and
`sys.exit(1)`.  Returns the exit code and the steps performed. -/
def mainExit (env : MainEnv) : Nat × List Step :=
  if env.initOk then
    (0, run_caught env.runEnv env.fault)
  else
    (1, [Step.notifyError])

/-- Camera-handle events of a whole execution of `run`: the Locator's
events followed by the Capturer's (the Capturer runs only when the Locator
found a camera). -/
def programHandleEvents (env : RunEnv) : List CamEvent :=
  (detect_camera env.detect).events ++
    (match (detect_camera env.detect).result with
     | some _ => (capture_image env.capture).events
     | none => [])

/-! ## Helper lemmas -/

theorem paired_append {a b : List CamEvent} (ha : Paired a) (hb : Paired b) :
    Paired (a ++ b) := by
  induction ha with
  | nil => simpa using hb
  | pair i h ih => simpa using Paired.pair i ih

theorem paired_balance_zero {evs : List CamEvent} (h : Paired evs) :
    handleBalance evs = 0 := by
  induction h with
  | nil => rfl
  | pair i h ih => simp [handleBalance, ih]

theorem paired_take_le_one {evs : List CamEvent} (h : Paired evs) :
    ∀ n, handleBalance (evs.take n) ≤ 1 := by
  induction h with
  | nil => intro n; simp [handleBalance]
  | pair i h ih =>
    intro n
    match n with
    | 0 => simp [handleBalance]
    | 1 => simp [handleBalance]
    | Nat.succ (Nat.succ m) =>
      have hm := ih m
      simp [handleBalance]
      omega

theorem detectFrom_result_find (env : DetectEnv) (l : List (Fin 5)) :
    (detectFrom env l).result = l.find? (fun i => env.opens i && env.reads i) := by
  induction l with
  | nil => rfl
  | cons i rest ih =>
    by_cases ho : env.opens i
    · by_cases hr : env.reads i
      · simp [detectFrom, ho, hr]
      · simp [detectFrom, ho, hr, ih]
    · simp [detectFrom, ho, ih]

theorem detectFrom_probes_le (env : DetectEnv) (l : List (Fin 5)) :
    (detectFrom env l).probes ≤ l.length := by
  induction l with
  | nil => simp [detectFrom]
  | cons i rest ih =>
    by_cases ho : env.opens i
    · by_cases hr : env.reads i
      · simp [detectFrom, ho, hr]
      · simp [detectFrom, ho, hr]; omega
    · simp [detectFrom, ho]; omega

theorem detectFrom_events_paired (env : DetectEnv) (l : List (Fin 5)) :
    Paired (detectFrom env l).events := by
  induction l with
  | nil => exact Paired.nil
  | cons i rest ih =>
    by_cases ho : env.opens i
    · by_cases hr : env.reads i
      · simp only [detectFrom, ho, hr, if_true]
        exact Paired.pair i.val Paired.nil
      · simp only [detectFrom, ho, hr, if_true, if_false]
        exact Paired.pair i.val ih
    · simpa only [detectFrom, ho, if_false] using ih

theorem capture_events_eq (env : CaptureEnv) :
    (capture_image env).events =
      if env.opensOk
      then [CamEvent.opened env.camId, CamEvent.released env.camId]
      else [] := by
  unfold capture_image
  split
  · split <;> rfl
  · rfl

theorem capture_events_paired (env : CaptureEnv) :
    Paired (capture_image env).events := by
  rw [capture_events_eq]
  split
  · exact Paired.pair env.camId Paired.nil
  · exact Paired.nil

theorem isAbsolute_append (d s : String) (h : isAbsolute d = true) :
    isAbsolute (d ++ s) = true := by
  unfold isAbsolute at h ⊢
  rw [String.data_append]
  rcases hd : d.data with _ | ⟨c, rest⟩
  · rw [hd] at h; simp at h
  · rw [hd] at h; simpa using h

/-! ## Claim theorems -/

/-- C2: on every exit path of `capture_image` — open failure, all reads
failing, write failure, success, or an exception raised between open and the
final read — `cap.release()` is executed exactly once before the function
returns. -/
theorem capture_release_exactly_once (env : CaptureEnv) :
    (capture_image env).releases = 1 := by
  unfold capture_image
  split
  · split <;> rfl
  · rfl

/-- C3: `detect_camera` probes indices 0..4 in ascending order and returns
the first index whose device both opens and yields a frame (`List.find?`
over the probe order), `none` when all five fail; it performs at most five
open/read/close cycles and leaves no device handle open on exit. -/
theorem detect_first_success (env : DetectEnv) :
    (detect_camera env).result
        = allCams.find? (fun i => env.opens i && env.reads i) ∧
      (detect_camera env).probes ≤ 5 ∧
      handleBalance (detect_camera env).events = 0 :=
  ⟨detectFrom_result_find env allCams,
   by simpa [allCams] using detectFrom_probes_le env allCams,
   paired_balance_zero (detectFrom_events_paired env allCams)⟩

/-- C8: `lock_workstation` makes exactly one `LockWorkStation()` attempt per
call and returns `true` exactly when the OS call reported success; an
exception from the OS call yields `false` instead of propagating. -/
theorem lock_single_attempt (c : OsCallOutcome) :
    (lock_workstation c).attempts = 1 ∧
      ((lock_workstation c).result = true ↔ c = OsCallOutcome.ret true) := by
  cases c with
  | ret b => cases b <;> simp [lock_workstation]
  | exn => simp [lock_workstation]

/-- C9: over the camera-handle events of a whole execution (Locator probe
followed by the Capturer when a camera was found), at most one handle is
open at every point, and none remains open at the end. -/
theorem single_open_handle (env : RunEnv) (n : Nat) :
    handleBalance ((programHandleEvents env).take n) ≤ 1 ∧
      handleBalance (programHandleEvents env) = 0 := by
  have hp : Paired (programHandleEvents env) := by
    unfold programHandleEvents
    apply paired_append (detectFrom_events_paired env.detect allCams)
    cases (detect_camera env.detect).result with
    | none => exact Paired.nil
    | some k => exact capture_events_paired env.capture
  exact ⟨paired_take_le_one hp n, paired_balance_zero hp⟩

/-- A device environment in which no index opens or reads. -/
def noCamEnv : DetectEnv := { opens := fun _ => false, reads := fun _ => false }

/-- A device environment in which index 0 opens and reads. -/
def camAt0Env : DetectEnv := { opens := fun _ => true, reads := fun _ => true }

/-- The fixed simulated clock 2024-03-05 09:08:07. -/
def sampleClock : DateTime := ⟨2024, 3, 5, 9, 8, 7⟩

/-- A capture environment in which everything succeeds. -/
def okCapEnv : CaptureEnv :=
  { camId := 0, opensOk := true, reads := fun _ => ReadOutcome.ok 5,
    write := WriteOutcome.ok, clock := sampleClock, appDir := "/app" }

/-- A capture environment whose device does not open, so capture fails. -/
def badCapEnv : CaptureEnv :=
  { camId := 0, opensOk := false, reads := fun _ => ReadOutcome.fail,
    write := WriteOutcome.ok, clock := sampleClock, appDir := "/app" }

/-- C4: when `detect_camera` found no camera and the confirmation dialog is
answered with anything other than OK (`1`), `run` performs only the initial
notice and the confirmation: `capture_image` and `lock_workstation` are
never invoked and nothing further happens before returning. -/
theorem cancel_stops_everything (env : RunEnv)
    (hc : (detect_camera env.detect).result = none)
    (ha : env.dialogAnswer ≠ 1) :
    runSteps env = [Step.notifyInitial, Step.confirmNoCamera] ∧
      Step.doCapture ∉ runSteps env ∧ Step.doLock ∉ runSteps env := by
  have h : runSteps env = [Step.notifyInitial, Step.confirmNoCamera] := by
    unfold runSteps
    rw [hc]
    simp [ha]
  refine ⟨h, ?_, ?_⟩ <;> simp [h]

/-- Witness for C4 at a concrete environment: all probes fail and the dialog
answer is 2 (Cancel). -/
theorem cancel_stops_everything_witness :
    (detect_camera
        { detect := noCamEnv, dialogAnswer := 2, capture := okCapEnv,
          lock := OsCallOutcome.ret true : RunEnv }.detect).result = none ∧
      ({ detect := noCamEnv, dialogAnswer := 2, capture := okCapEnv,
          lock := OsCallOutcome.ret true : RunEnv }.dialogAnswer ≠ 1) ∧
      (runSteps
          { detect := noCamEnv, dialogAnswer := 2, capture := okCapEnv,
            lock := OsCallOutcome.ret true }
          = [Step.notifyInitial, Step.confirmNoCamera] ∧
        Step.doCapture ∉ runSteps
          { detect := noCamEnv, dialogAnswer := 2, capture := okCapEnv,
            lock := OsCallOutcome.ret true } ∧
        Step.doLock ∉ runSteps
          { detect := noCamEnv, dialogAnswer := 2, capture := okCapEnv,
            lock := OsCallOutcome.ret true }) :=
  ⟨by decide, by decide,
   cancel_stops_everything _ (by decide) (by decide)⟩

/-- C5: when a camera was found but `capture_image` returned `None`, `run`
still invokes `lock_workstation`; and when no camera was found and the user
answered OK, `lock_workstation` is invoked while `capture_image` is not. -/
theorem lock_not_skipped (envA envB : RunEnv)
    (hA : (detect_camera envA.detect).result ≠ none)
    (hAf : (capture_image envA.capture).result = none)
    (hB : (detect_camera envB.detect).result = none)
    (hBa : envB.dialogAnswer = 1) :
    Step.doLock ∈ runSteps envA ∧
      (Step.doLock ∈ runSteps envB ∧ Step.doCapture ∉ runSteps envB) := by
  refine ⟨?_, ?_, ?_⟩
  · rcases hk : (detect_camera envA.detect).result with _ | k
    · exact absurd hk hA
    · simp [runSteps, hk, hAf, lockSteps]
  · simp [runSteps, hB, hBa, lockSteps]
  · simp [runSteps, hB, hBa, lockSteps]

/-- Witness for C5 at concrete environments: `envA` has a camera at index 0
whose capture device fails to open; `envB` has no camera and the user
answers OK. -/
theorem lock_not_skipped_witness :
    (detect_camera camAt0Env).result ≠ none ∧
      (capture_image badCapEnv).result = none ∧
      (detect_camera noCamEnv).result = none ∧
      ((1 : Int) = 1) ∧
      (Step.doLock ∈ runSteps
          { detect := camAt0Env, dialogAnswer := 2, capture := badCapEnv,
            lock := OsCallOutcome.ret true } ∧
        (Step.doLock ∈ runSteps
            { detect := noCamEnv, dialogAnswer := 1, capture := okCapEnv,
              lock := OsCallOutcome.ret true } ∧
          Step.doCapture ∉ runSteps
            { detect := noCamEnv, dialogAnswer := 1, capture := okCapEnv,
              lock := OsCallOutcome.ret true })) :=
  ⟨by decide, by decide, by decide, rfl,
   lock_not_skipped
     { detect := camAt0Env, dialogAnswer := 2, capture := badCapEnv,
       lock := OsCallOutcome.ret true }
     { detect := noCamEnv, dialogAnswer := 1, capture := okCapEnv,
       lock := OsCallOutcome.ret true }
     (by decide) (by decide) (by decide) rfl⟩

/-- C10: when no camera was found, `run` continues past the confirmation —
in particular to `lock_workstation` — exactly when the dialog returned `1`
(IDOK); every other return value (2 = IDCANCEL, 0 = dialog failure, ...)
stops the sequence, and `capture_image` is never invoked. -/
theorem confirm_only_on_ok (env : RunEnv)
    (hc : (detect_camera env.detect).result = none) :
    ((Step.doLock ∈ runSteps env) ↔ env.dialogAnswer = 1) ∧
      Step.doCapture ∉ runSteps env := by
  by_cases ha : env.dialogAnswer = 1 <;>
    simp [runSteps, hc, ha, lockSteps]

/-- Witness for C10 at a concrete environment: no camera, dialog answer 0
(dialog failure). -/
theorem confirm_only_on_ok_witness :
    (detect_camera noCamEnv).result = none ∧
      ((Step.doLock ∈ runSteps
          { detect := noCamEnv, dialogAnswer := 0, capture := okCapEnv,
            lock := OsCallOutcome.ret true }
        ↔ ((0 : Int) = 1)) ∧
       Step.doCapture ∉ runSteps
          { detect := noCamEnv, dialogAnswer := 0, capture := okCapEnv,
            lock := OsCallOutcome.ret true }) :=
  ⟨by decide,
   confirm_only_on_ok
     { detect := noCamEnv, dialogAnswer := 0, capture := okCapEnv,
       lock := OsCallOutcome.ret true }
     (by decide)⟩

/-- C7: `main` exits with code 0 exactly when initialization (`__init__` /
Windows API loading) succeeded, over every body behaviour — normal
completion, the user-cancelled path, the capture-failed path, a
`KeyboardInterrupt`, or an unexpected exception; an unexpected exception in
the body is caught by `run`'s top-level handler and surfaced via an error
dialog rather than crashing. -/
theorem exit_code_zero_iff_init (env : MainEnv) (k : Nat) :
    ((mainExit env).1 = 0 ↔ env.initOk = true) ∧
      Step.notifyError ∈ run_caught env.runEnv (BodyFault.unexpected k) := by
  constructor
  · by_cases hi : env.initOk <;> simp [mainExit, hi]
  · simp [run_caught]

/-- A capture environment in which the first two reads succeed and the third
fails, with everything else succeeding. -/
def stalePartialEnv : CaptureEnv :=
  { camId := 0, opensOk := true,
    reads := fun i => if i.val < 2 then ReadOutcome.ok 7 else ReadOutcome.fail,
    write := WriteOutcome.ok, clock := sampleClock, appDir := "/app" }

/-- C1 counterexample: with the device open and reads (ok, ok, fail), a
frame was successfully read, yet `capture_image` returns `None` (FAILURE) —
`ret, frame = cap.read()` rebinds `frame` to `None` on the failed final
read, so FAILURE is not equivalent to "no frame was ever successfully
read". -/
theorem capture_fails_despite_success :
    stalePartialEnv.reads 0 = ReadOutcome.ok 7 ∧
      (capture_image stalePartialEnv).result = none := by
  constructor <;> rfl

/-- C1 (amended): `capture_image` performs exactly 3 reads in sequence (a
failed read does not abort the loop), the `frame` variable holds the
outcome of the *last* read, and FAILURE is reported exactly when the third
read did not succeed (or the subsequent write failed); when the third read
succeeds, that frame is the one saved. -/
theorem capture_last_read_decides (env : CaptureEnv)
    (ho : env.opensOk = true)
    (he : ∀ i, env.reads i ≠ ReadOutcome.exn) :
    (capture_image env).readsAttempted = 3 ∧
      ((capture_image env).result ≠ none ↔
        ((∃ f, env.reads 2 = ReadOutcome.ok f) ∧
          env.write = WriteOutcome.ok)) := by
  have he0 := he 0
  have he1 := he 1
  have he2 := he 2
  rcases h0 : env.reads 0 with f0 | _ | _ <;>
  rcases h1 : env.reads 1 with f1 | _ | _ <;>
  rcases h2 : env.reads 2 with f2 | _ | _ <;>
    first
      | exact absurd h0 he0
      | exact absurd h1 he1
      | exact absurd h2 he2
      | (by_cases hw : env.write = WriteOutcome.ok <;>
          simp [capture_image, readLoop, ho, h0, h1, h2, hw])

/-- Witness for C1 (amended) at a concrete environment: all three reads
succeed and the write succeeds. -/
theorem capture_last_read_decides_witness :
    okCapEnv.opensOk = true ∧
      (∀ i, okCapEnv.reads i ≠ ReadOutcome.exn) ∧
      ((capture_image okCapEnv).readsAttempted = 3 ∧
        ((capture_image okCapEnv).result ≠ none ↔
          ((∃ f, okCapEnv.reads 2 = ReadOutcome.ok f) ∧
            okCapEnv.write = WriteOutcome.ok))) :=
  ⟨rfl, by decide, capture_last_read_decides okCapEnv rfl (by decide)⟩

/-- C6: whenever `capture_image` returns a path, the write succeeded and the
path is the program directory joined with the timestamped filename — hence
absolute whenever the program directory is (it is produced by
`os.path.abspath`) — and for the fixed clock 2024-03-05 09:08:07 the
filename is exactly `capture_20240305_090807.jpg`. -/
theorem capture_path_correct (env : CaptureEnv) (p : String)
    (habs : isAbsolute env.appDir = true)
    (h : (capture_image env).result = some p) :
    env.write = WriteOutcome.ok ∧
      p = pathJoin env.appDir (captureFilename env.clock) ∧
      isAbsolute p = true ∧
      captureFilename ⟨2024, 3, 5, 9, 8, 7⟩ = "capture_20240305_090807.jpg" := by
  unfold capture_image at h
  split at h
  · split at h
    · exact absurd h (by simp)
    · exact absurd h (by simp)
    · simp only [] at h
      split at h
      · next hw =>
        refine ⟨hw, ?_, ?_, by decide⟩
        · exact (Option.some_injective _ h).symm
        · have hp : p = env.appDir ++ "/" ++ captureFilename env.clock :=
            (Option.some_injective _ h).symm
          rw [hp]
          exact isAbsolute_append _ _ (isAbsolute_append _ _ habs)
      · exact absurd h (by simp)
  · exact absurd h (by simp)

/-- Witness for C6 at a concrete environment: everything succeeds, the
program directory is `/app` and the clock reads 2024-03-05 09:08:07. -/
theorem capture_path_correct_witness :
    isAbsolute okCapEnv.appDir = true ∧
      (capture_image okCapEnv).result = some "/app/capture_20240305_090807.jpg" ∧
      (okCapEnv.write = WriteOutcome.ok ∧
        "/app/capture_20240305_090807.jpg"
            = pathJoin okCapEnv.appDir (captureFilename okCapEnv.clock) ∧
        isAbsolute "/app/capture_20240305_090807.jpg" = true ∧
        captureFilename ⟨2024, 3, 5, 9, 8, 7⟩ = "capture_20240305_090807.jpg") :=
  ⟨by decide, by decide,
   capture_path_correct okCapEnv "/app/capture_20240305_090807.jpg"
     (by decide) (by decide)⟩
